import Mathlib

/-!
Verification of the VatEFS EuroScope plugin core
(`src/euroscope-plugin/src/plugin.cpp`), shallowly embedded in Lean.

Host C strings are modelled at two levels:
* byte level (`List Nat`, one entry per byte, the C string being the bytes
  before the terminating NUL) for the UTF-8 boundary functions, which the
  source defines on raw bytes; and
* `String` / `Option String` (the `Option` distinguishing a null `char *`
  pointer) for the message-building and command logic, whose string
  operations are position-consistent with the byte view on the ASCII data
  the claims are about.  The legacy-code-page conversions `AnsiToUtf8` /
  `Utf8ToAnsi` are an out-of-scope boundary transform and are modelled as
  the identity on these abstract string values.
-/

namespace VatEFS

/-- The `?` placeholder byte emitted by `SanitizeUtf8`. -/
def qmByte : Nat := 0x3F

/-- A UTF-8 continuation byte: `(c & 0xC0) == 0x80`, i.e. `0x80..0xBF`. -/
def isContByte (c : Nat) : Bool := 0x80 ≤ c && c ≤ 0xBF

/-- Lead-byte classification shared by `IsValidUtf8` and `SanitizeUtf8`:
`C2..DF` expect one continuation byte, `E0..EF` two, `F0..F4` three;
every other non-ASCII byte is an invalid lead. -/
def leadContinuations (c : Nat) : Option Nat :=
  if 0xC2 ≤ c ∧ c ≤ 0xDF then some 1
  else if 0xE0 ≤ c ∧ c ≤ 0xEF then some 2
  else if 0xF0 ≤ c ∧ c ≤ 0xF4 then some 3
  else none

/-- Model of `VatEFSPlugin::IsValidUtf8` on the bytes of a non-null C string.
The scan stops (accepting) at a NUL byte; a sequence truncated by the end
of the string fails the corresponding continuation-byte check. -/
def isValidUtf8Bytes : List Nat → Bool
  | [] => true
  | c :: rest =>
    if c = 0 then true
    else if c ≤ 0x7F then isValidUtf8Bytes rest
    else
      match leadContinuations c with
      | some 1 =>
        match rest with
        | c1 :: r => isContByte c1 && isValidUtf8Bytes r
        | [] => false
      | some 2 =>
        match rest with
        | c1 :: c2 :: r => isContByte c1 && (isContByte c2 && isValidUtf8Bytes r)
        | _ => false
      | some 3 =>
        match rest with
        | c1 :: c2 :: c3 :: r =>
          isContByte c1 && (isContByte c2 && (isContByte c3 && isValidUtf8Bytes r))
        | _ => false
      | _ => false

/-- Model of `VatEFSPlugin::IsValidUtf8` including its null-pointer case:
`if (!str) return true;`. -/
def isValidUtf8 : Option (List Nat) → Bool
  | none => true
  | some bytes => isValidUtf8Bytes bytes

/-- Worker loop of `VatEFSPlugin::SanitizeUtf8`.  `seq` is the partial
multi-byte sequence accumulated so far and `k` the number of continuation
bytes still expected for it.  On a byte that breaks an expected sequence the
source emits one `?` per accumulated byte and reprocesses that byte as a
fresh lead (`continue` without advancing `p`). -/
def sanitizeAux (seq : List Nat) (k : Nat) (l : List Nat) : List Nat :=
  match l with
  | [] => List.replicate seq.length qmByte
  | c :: rest =>
    if 0 < k then
      if isContByte c then
        if k = 1 then
          seq ++ [c] ++ sanitizeAux [] 0 rest
        else
          sanitizeAux (seq ++ [c]) (k - 1) rest
      else
        List.replicate seq.length qmByte ++
          (if c = 0 then [] else sanitizeAux [] 0 (c :: rest))
    else
      if c = 0 then []
      else if c ≤ 0x7F then c :: sanitizeAux [] 0 rest
      else
        match leadContinuations c with
        | some k' => sanitizeAux [c] k' rest
        | none => qmByte :: sanitizeAux [] 0 rest
termination_by (l.length, k)
decreasing_by
  all_goals simp_wf
  all_goals omega

/-- Model of `VatEFSPlugin::SanitizeUtf8` on the bytes of a C string
(null maps to the empty result, as in the source). -/
def sanitizeUtf8 : Option (List Nat) → List Nat
  | none => []
  | some bytes => sanitizeAux [] 0 bytes

/-- A JSON object, abstracted to its key/value assignments; only the
string-valued entries touched by `SetJsonIfValidUtf8` are relevant here. -/
def JsonStrObj := List (String × List Nat)

/-- The assignment `j[key] = value` on the abstract object: overwrite an existing key or
append a new one. -/
def jsonSet (j : JsonStrObj) (key : String) (value : List Nat) : JsonStrObj :=
  match j with
  | [] => [(key, value)]
  | (k, v) :: rest =>
    if k = key then (k, value) :: rest else (k, v) :: jsonSet rest key value

/-- Model of `VatEFSPlugin::SetJsonIfValidUtf8`: a null value pointer leaves the
object untouched; otherwise the key is set only when the bytes pass
`IsValidUtf8` (an invalid value is dropped with a debug note). -/
def setJsonIfValidUtf8 (j : JsonStrObj) (key : String) (value : Option (List Nat)) :
    JsonStrObj :=
  match value with
  | none => j
  | some v => if isValidUtf8Bytes v then jsonSet j key v else j

/-! ### String helpers shared by the message builders and command translator -/

/-- Drop the first `n` characters (`std::string::substr(n)`; byte positions in
the source, identical on the ASCII data involved). -/
def strDropChars (n : Nat) (s : String) : String := String.mk (s.data.drop n)

/-- Leading-match test against an ASCII literal: `strncmp(s, pat, |pat|) == 0`
reads, and `compare(0, n, pat)` compares, exactly the first `|pat|` bytes. -/
def strStarts (pat s : String) : Bool := List.isPrefixOf pat.data s.data

/-- Substring search (`std::string::find(pat) != npos`) for a non-empty ASCII
pattern, scanning every start position. -/
def listContains (pat : List Char) : List Char → Bool
  | [] => false
  | c :: rest => List.isPrefixOf pat (c :: rest) || listContains pat rest

/-- ASCII uppercasing applied character-wise, as the source's
`std::toupper((unsigned char)c)` loop under the default C locale. -/
def upperStr (s : String) : String := String.mk (s.data.map Char.toUpper)

/-- Split at the first space: `find(' ')` plus the two `substr` calls; when no
space exists the second component is the empty string. -/
def splitFirstWord (s : String) : String × String :=
  match (s.data.span (· ≠ ' ')).2 with
  | [] => (s, "")
  | _ :: rest => (String.mk (s.data.span (· ≠ ' ')).1, String.mk rest)

/-- Split at the first `/`: `find('/')` with `substr(0, slashPos)` and
`substr(slashPos + 1)`; `none` when the term has no slash. -/
def splitAtSlash (s : String) : Option (String × String) :=
  match (s.data.span (· ≠ '/')).2 with
  | [] => none
  | _ :: rest => some (String.mk (s.data.span (· ≠ '/')).1, String.mk rest)

/-- Model of `IsSidPattern`: exactly 7 characters, 5 uppercase letters, then a digit,
then an uppercase letter (e.g. `VADIN3J`). -/
def isSidPattern (s : String) : Bool :=
  match s.data with
  | [c0, c1, c2, c3, c4, c5, c6] =>
    c0.isUpper && c1.isUpper && c2.isUpper && c3.isUpper && c4.isUpper &&
      c5.isDigit && c6.isUpper
  | _ => false

/-- Route rewriting of the `assignDepartureRunway` inbound command: the first
whitespace-delimited token keeps a `.../runway` replacement when it already has
a slash, a pilot-filed-SID-shaped token is discarded in favour of an
`airport/runway` fresh term, and otherwise `airport/runway` is prepended to the
untouched route. -/
def assignDepartureRunwayRoute (departureAirport runway route : String) : String :=
  let firstTerm := (splitFirstWord route).1
  let restOfRoute := (splitFirstWord route).2
  match splitAtSlash firstTerm with
  | some (headPart, _) =>
    headPart ++ "/" ++ runway ++ (if restOfRoute = "" then "" else " " ++ restOfRoute)
  | none =>
    if isSidPattern firstTerm then
      departureAirport ++ "/" ++ runway ++
        (if restOfRoute = "" then "" else " " ++ restOfRoute)
    else
      departureAirport ++ "/" ++ runway ++ (if route = "" then "" else " " ++ route)

/-- Route rewriting of the `assignSid` inbound command (kept for the command
translator): the slash-prefixed first term keeps its runway side, a
pilot-filed SID or plain route gets `sid/currentRunway` in front. -/
def assignSidRoute (sid currentRunway route : String) : String :=
  let firstTerm := (splitFirstWord route).1
  let restOfRoute := (splitFirstWord route).2
  match splitAtSlash firstTerm with
  | some (_, existingRunway) =>
    sid ++ "/" ++ existingRunway ++ (if restOfRoute = "" then "" else " " ++ restOfRoute)
  | none =>
    if isSidPattern firstTerm then
      sid ++ "/" ++ currentRunway ++ (if restOfRoute = "" then "" else " " ++ restOfRoute)
    else
      sid ++ "/" ++ currentRunway ++ (if route = "" then "" else " " ++ route)

/-! ### Scratch-pad classification -/

/-- Which JSON field a scratch-pad string is reclassified into. -/
inductive ScratchClass where
  | groundstate (value : String)
  | clearedToLand
  | stand (value : String)
  | scratchText (value : String)
deriving DecidableEq, Repr

/-- The scratch-pad rules of the `CTR_DATA_TYPE_SCRATCH_PAD_STRING` case, in
source order: the three exact ground-state tokens, then the exact
`/EFS/CTL` literal, then values longer than 6 characters containing
`GRP/S/` (emitting `substr(6)`, i.e. everything after the first 6
characters), and a verbatim `scratch` fallback. -/
def classifyScratch (s : String) : ScratchClass :=
  if s = "LINEUP" ∨ s = "ONFREQ" ∨ s = "DE-ICE" then .groundstate s
  else if s = "/EFS/CTL" then .clearedToLand
  else if 6 < s.length ∧ listContains "GRP/S/".data s.data then .stand (strDropChars 6 s)
  else .scratchText s

/-! ### Host entity snapshots

Each structure collects the host getters the plugin reads; `Option String`
fields are `none` when the corresponding `const char *` getter returns a
null pointer. -/

/-- A live flight plan as seen through `CFlightPlan`, `CFlightPlanData` and
`CFlightPlanControllerAssignedData`. -/
structure FlightPlanEnv where
  isValid : Bool := true
  received : Bool := true
  callsign : String := ""
  origin : Option String := none
  destination : Option String := none
  alternate : Option String := none
  aircraftType : Option String := none
  wtc : Char := ' '
  planType : Option String := none
  commType : Char := ' '
  route : Option String := none
  trackingController : Option String := none
  handoffTarget : Option String := none
  nextController : Option String := none
  groundState : Option String := none
  clearanceFlag : Bool := false
  squawk : Option String := none
  finalAltitude : Int := 0
  clearedAltitude : Int := 0
  assignedSpeed : Int := 0
  assignedMach : ℚ := 0
  assignedRate : Int := 0
  assignedHeading : Int := 0
  directTo : Option String := none
  scratchPad : Option String := none
  trackState : Int := 0
  fpState : Int := 0
  simulated : Bool := false
  arrRwy : Option String := none
  depRwy : Option String := none
  sidName : Option String := none
  starName : Option String := none
  eobt : Option String := none
  etePoints : Int := 0
deriving DecidableEq

/-- Model of `VatEFSPlugin::FilterFlightPlan`: valid plan, data received, origin and
destination present, non-empty and at least 2 characters, and at least one of
them starting with the `ES` country filter. -/
def filterFlightPlan (fp : FlightPlanEnv) : Bool :=
  if ¬ fp.isValid then false
  else if ¬ fp.received then false
  else
    match fp.origin, fp.destination with
    | some o, some d =>
      if o = "" ∨ d = "" then false
      else if o.length < 2 ∨ d.length < 2 then false
      else if ¬ strStarts "ES" o ∧ ¬ strStarts "ES" d then false
      else true
    | _, _ => false

/-- Keep an optional host string only under the source's guard condition
(the `if (ptr && <length checks>)` shape around `SetJsonIfValidUtf8`). -/
def optStrIf (cond : String → Bool) : Option String → Option String
  | some s => if cond s then some s else none
  | none => none

/-- The `flightPlanDataUpdate` JSON object; `none` means the key is absent. -/
structure FPMsg where
  callsign : Option String := none
  controller : Option String := none
  handoffTargetController : Option String := none
  nextController : Option String := none
  aircraftType : Option String := none
  wakeTurbulence : Option String := none
  origin : Option String := none
  destination : Option String := none
  alternate : Option String := none
  flightRules : Option String := none
  communicationType : Option String := none
  groundstate : Option String := none
  clearance : Option Bool := none
  route : Option String := none
  arrRwy : Option String := none
  star : Option String := none
  depRwy : Option String := none
  sid : Option String := none
  eobt : Option String := none
  ete : Option Int := none
deriving DecidableEq

/-- Model of `VatEFSPlugin::OnFlightPlanFlightPlanDataUpdate`: `none` when no event is
published for the invocation (disabled, filtered out, bad callsign, or data
not received), otherwise the JSON object that is posted. -/
def onFlightPlanFlightPlanDataUpdate (disabled : Bool) (fp : FlightPlanEnv) :
    Option FPMsg :=
  if disabled ∨ ¬ filterFlightPlan fp then none
  else if fp.callsign = "" ∨ 20 < fp.callsign.length then none
  else if ¬ fp.received then none
  else some
    { callsign := some fp.callsign
      controller := optStrIf (fun t => t.length < 20) fp.trackingController
      handoffTargetController := optStrIf (fun t => t.length < 20) fp.handoffTarget
      nextController := optStrIf (fun t => t.length < 20) fp.nextController
      aircraftType := optStrIf (fun t => t ≠ "" ∧ t.length < 20) fp.aircraftType
      wakeTurbulence := some (String.mk [fp.wtc])
      origin := optStrIf (fun o => o.length < 10) fp.origin
      destination := optStrIf (fun d => d.length < 10) fp.destination
      alternate := optStrIf (fun a => a.length < 10) fp.alternate
      flightRules := fp.planType
      communicationType := some (String.mk [fp.commType])
      groundstate := fp.groundState
      clearance := some fp.clearanceFlag
      route := optStrIf (fun r => r ≠ "" ∧ r.length < 1000) fp.route
      arrRwy := optStrIf (fun r => r ≠ "" ∧ r.length < 5) fp.arrRwy
      star := optStrIf (fun r => r ≠ "" ∧ r.length < 10) fp.starName
      depRwy := optStrIf (fun r => r ≠ "" ∧ r.length < 5) fp.depRwy
      sid := optStrIf (fun r => r ≠ "" ∧ r.length < 10) fp.sidName
      eobt := optStrIf (fun e => e.length = 4) fp.eobt
      ete := if 0 ≤ fp.etePoints ∧ fp.etePoints ≤ 3600 then some fp.etePoints else none }

/-! ### Controller-assigned data updates -/

/-- Sub-type codes of `OnFlightPlanControllerAssignedDataUpdate`; numeric
values from the EuroScope SDK header (an external dependency of the repo). -/
def CTR_DATA_TYPE_SQUAWK : Int := 1
def CTR_DATA_TYPE_FINAL_ALTITUDE : Int := 2
def CTR_DATA_TYPE_TEMPORARY_ALTITUDE : Int := 3
def CTR_DATA_TYPE_COMMUNICATION_TYPE : Int := 4
def CTR_DATA_TYPE_SCRATCH_PAD_STRING : Int := 5
def CTR_DATA_TYPE_GROUND_STATE : Int := 6
def CTR_DATA_TYPE_CLEARENCE_FLAG : Int := 7
def CTR_DATA_TYPE_DEPARTURE_SEQUENCE : Int := 8
def CTR_DATA_TYPE_SPEED : Int := 9
def CTR_DATA_TYPE_MACH : Int := 10
def CTR_DATA_TYPE_RATE : Int := 11
def CTR_DATA_TYPE_HEADING : Int := 12
def CTR_DATA_TYPE_DIRECT_TO : Int := 13

/-- The `controllerAssignedDataUpdate` JSON object; each field is the JSON
key of the same name except `rflVal`/`cflVal`/`scratchVal`, which stand for
the `rfl`/`cfl`/`scratch` keys. -/
structure CADMsg where
  callsign : Option String := none
  controller : Option String := none
  squawk : Option String := none
  rflVal : Option Int := none
  cflVal : Option Int := none
  ahdg : Option Int := none
  direct : Option String := none
  groundstate : Option String := none
  clearance : Option Bool := none
  asp : Option Int := none
  mach : Option ℚ := none
  arc : Option Int := none
  scratchVal : Option String := none
  stand : Option String := none
  clearedToLand : Option Bool := none
deriving DecidableEq

/-- Model of `VatEFSPlugin::OnFlightPlanControllerAssignedDataUpdate`: `none` when
nothing is published (disabled, filtered, bad callsign, sub-type code outside
`SQUAWK..DIRECT_TO`, or a null/overlong scratch-pad string), otherwise the
posted JSON object with exactly the sub-type's data field populated. -/
def onFlightPlanControllerAssignedDataUpdate (disabled : Bool) (fp : FlightPlanEnv)
    (dataType : Int) : Option CADMsg :=
  if disabled ∨ ¬ filterFlightPlan fp then none
  else if fp.callsign = "" ∨ 20 < fp.callsign.length then none
  else if dataType < CTR_DATA_TYPE_SQUAWK ∨ CTR_DATA_TYPE_DIRECT_TO < dataType then none
  else
    let base : CADMsg :=
      { callsign := some fp.callsign
        controller := optStrIf (fun t => t ≠ "" ∧ t.length < 20) fp.trackingController }
    if dataType = CTR_DATA_TYPE_SQUAWK then
      some { base with squawk := optStrIf (fun s => s.length = 4) fp.squawk }
    else if dataType = CTR_DATA_TYPE_FINAL_ALTITUDE then
      some { base with
        rflVal :=
          if 0 ≤ fp.finalAltitude ∧ fp.finalAltitude ≤ 100000 then
            some fp.finalAltitude
          else none }
    else if dataType = CTR_DATA_TYPE_TEMPORARY_ALTITUDE then
      if fp.clearedAltitude = 1 ∨ fp.clearedAltitude = 2 then
        some { base with cflVal := some fp.clearedAltitude, ahdg := some 0, direct := some "" }
      else
        some { base with cflVal := some fp.clearedAltitude }
    else if dataType = CTR_DATA_TYPE_COMMUNICATION_TYPE then
      some base
    else if dataType = CTR_DATA_TYPE_SCRATCH_PAD_STRING then
      match fp.scratchPad with
      | none => none
      | some scratch =>
        if 50 < scratch.length then none
        else
          match classifyScratch scratch with
          | .groundstate v => some { base with groundstate := some v }
          | .clearedToLand => some { base with clearedToLand := some true }
          | .stand v => some { base with stand := some v }
          | .scratchText v => some { base with scratchVal := some v }
    else if dataType = CTR_DATA_TYPE_GROUND_STATE then
      some { base with groundstate := fp.groundState }
    else if dataType = CTR_DATA_TYPE_CLEARENCE_FLAG then
      some { base with clearance := some fp.clearanceFlag }
    else if dataType = CTR_DATA_TYPE_DEPARTURE_SEQUENCE then
      some base
    else if dataType = CTR_DATA_TYPE_SPEED then
      some { base with
        asp :=
          if 0 ≤ fp.assignedSpeed ∧ fp.assignedSpeed ≤ 1500 then
            some fp.assignedSpeed
          else none }
    else if dataType = CTR_DATA_TYPE_MACH then
      some { base with
        mach :=
          if 0 ≤ fp.assignedMach ∧ fp.assignedMach ≤ 10 then
            some fp.assignedMach
          else none }
    else if dataType = CTR_DATA_TYPE_RATE then
      some { base with
        arc :=
          if -50000 ≤ fp.assignedRate ∧ fp.assignedRate ≤ 50000 then
            some fp.assignedRate
          else none }
    else if dataType = CTR_DATA_TYPE_HEADING then
      if 0 ≤ fp.assignedHeading ∧ fp.assignedHeading ≤ 360 then
        some { base with ahdg := some fp.assignedHeading, direct := some "" }
      else some base
    else if dataType = CTR_DATA_TYPE_DIRECT_TO then
      match fp.directTo with
      | some d =>
        if d.length < 50 then
          if d ≠ "" then some { base with direct := some d, ahdg := some 0 }
          else some { base with direct := some d }
        else some base
      | none => some base
    else
      some base

/-! ### Remaining event handlers -/

/-- The `flightPlanDisconnect` JSON object. -/
structure FPDiscMsg where
  callsign : Option String := none
deriving DecidableEq

/-- Model of `VatEFSPlugin::OnFlightPlanDisconnect`. -/
def onFlightPlanDisconnect (disabled : Bool) (fp : FlightPlanEnv) : Option FPDiscMsg :=
  if disabled ∨ ¬ filterFlightPlan fp then none
  else some { callsign := some fp.callsign }

/-- The `flightPlanFlightStripPushed` JSON object. -/
structure StripPushMsg where
  callsign : Option String := none
  sender : Option String := none
  target : Option String := none
deriving DecidableEq

/-- Model of `VatEFSPlugin::OnFlightPlanFlightStripPushed`. -/
def onFlightPlanFlightStripPushed (disabled : Bool) (fp : FlightPlanEnv)
    (senderController targetController : Option String) : Option StripPushMsg :=
  if disabled ∨ ¬ filterFlightPlan fp then none
  else some
    { callsign := some fp.callsign
      sender := optStrIf (fun s => s ≠ "" ∧ s.length < 20) senderController
      target := optStrIf (fun s => s ≠ "" ∧ s.length < 20) targetController }

/-- A controller as seen through `CController`; the full name is kept as raw
host bytes because it passes through `SanitizeUtf8` rather than the
omit-if-invalid policy. -/
structure ControllerEnv where
  isValid : Bool := true
  callsign : Option String := none
  positionId : Option String := none
  fullName : Option (List Nat) := none
  frequency : ℚ := 0
  rating : Int := 0
  facility : Int := 0
  sectorFileName : Option String := none
  isController : Bool := false
deriving DecidableEq

/-- The `controllerPositionUpdate` JSON object (`name` holds sanitized
bytes). -/
structure CtrlMsg where
  callsign : Option String := none
  position : Option String := none
  name : Option (List Nat) := none
  frequency : Option ℚ := none
  rating : Option Int := none
  facility : Option Int := none
  sector : Option String := none
  controller : Option Bool := none
  me : Option Bool := none
deriving DecidableEq

/-- Model of `VatEFSPlugin::OnControllerPositionUpdate`; `selfCallsign` is
`ControllerMyself().GetCallsign()`.  The `me` flag is set only when both
callsign pointers are non-null (their UTF-8 validity checks hold for every
value representable as a Lean `String`). -/
def onControllerPositionUpdate (disabled : Bool) (c : ControllerEnv)
    (selfCallsign : Option String) : Option CtrlMsg :=
  if disabled then none
  else some
    { callsign := c.callsign
      position := c.positionId
      name := (c.fullName).map (fun bytes => sanitizeUtf8 (some bytes))
      frequency := some c.frequency
      rating := some c.rating
      facility := some c.facility
      sector := c.sectorFileName
      controller := some c.isController
      me :=
        match c.callsign, selfCallsign with
        | some mine, some self => some (mine = self)
        | _, _ => none }

/-- Model of `VatEFSPlugin::OnControllerDisconnect` (a bare callsign message). -/
def onControllerDisconnect (disabled : Bool) (c : ControllerEnv) :
    Option (Option String) :=
  if disabled then none
  else some c.callsign

/-- A radar position report (`GetPosition()`). -/
structure RadarPosition where
  isValid : Bool := false
  latitude : ℚ := 0
  longitude : ℚ := 0
  pressureAltitude : Int := 0
  headingTrueNorth : Int := 0
  squawk : Option String := none
deriving DecidableEq

/-- A radar target as seen through `CRadarTarget`. -/
structure RadarTargetEnv where
  isValid : Bool := true
  callsign : Option String := none
  verticalSpeed : Int := 0
  groundSpeed : Int := 0
  position : RadarPosition := {}
  correlatedFP : Option FlightPlanEnv := none
deriving DecidableEq

/-- The `radarTargetPositionUpdate` JSON object. -/
structure RTMsg where
  callsign : Option String := none
  verticalSpeed : Option Int := none
  gs : Option Int := none
  latitude : Option ℚ := none
  longitude : Option ℚ := none
  altitude : Option Int := none
  heading : Option Int := none
  squawk : Option String := none
  controller : Option String := none
  handoffTargetController : Option String := none
  nextController : Option String := none
  ete : Option Int := none
deriving DecidableEq

/-- Model of `VatEFSPlugin::OnRadarTargetPositionUpdate`. -/
def onRadarTargetPositionUpdate (disabled : Bool) (rt : RadarTargetEnv) :
    Option RTMsg :=
  if disabled ∨ ¬ rt.isValid then none
  else
    let m0 : RTMsg :=
      { callsign := rt.callsign
        verticalSpeed := some rt.verticalSpeed
        gs := some rt.groundSpeed }
    let m1 :=
      if rt.position.isValid then
        { m0 with
          latitude := some rt.position.latitude
          longitude := some rt.position.longitude
          altitude := some rt.position.pressureAltitude
          heading := some rt.position.headingTrueNorth
          squawk := optStrIf (fun s => s.length = 4) rt.position.squawk }
      else m0
    match rt.correlatedFP with
    | some fp =>
      if fp.isValid then
        some { m1 with
          controller := optStrIf (fun t => t.length < 20) fp.trackingController
          handoffTargetController := optStrIf (fun t => t.length < 20) fp.handoffTarget
          nextController := optStrIf (fun t => t.length < 20) fp.nextController
          ete := if 0 ≤ fp.etePoints ∧ fp.etePoints ≤ 3600 then some fp.etePoints else none }
      else some m1
    | none => some m1

/-! ### The periodic `Refresh` republish -/

/-- First stage of the per-flight-plan `controllerAssignedDataUpdate`
snapshot that `VatEFSPlugin::Refresh` posts unconditionally for every
enumerated flight plan: the callsign, squawk, final-altitude and
cleared-altitude assignments. -/
def refreshCADMsgA (fp : FlightPlanEnv) : CADMsg :=
  { callsign := some fp.callsign
    squawk := optStrIf (fun s => s.length = 4) fp.squawk
    rflVal :=
      if 0 ≤ fp.finalAltitude ∧ fp.finalAltitude ≤ 100000 then
        some fp.finalAltitude
      else none
    cflVal := some fp.clearedAltitude }

/-- Second stage: the cleared-altitude sentinel values 1 and 2 additionally
write `ahdg 0` and an empty `direct`. -/
def refreshCADMsgB (fp : FlightPlanEnv) : CADMsg :=
  if fp.clearedAltitude = 1 ∨ fp.clearedAltitude = 2 then
    { refreshCADMsgA fp with ahdg := some 0, direct := some "" }
  else refreshCADMsgA fp

/-- Third stage: scratch pad, ground state, clearance flag, and the
range-gated assigned speed / Mach / rate. -/
def refreshCADMsgC (fp : FlightPlanEnv) : CADMsg :=
  { refreshCADMsgB fp with
    scratchVal := fp.scratchPad
    groundstate := fp.groundState
    clearance := some fp.clearanceFlag
    asp :=
      if 0 ≤ fp.assignedSpeed ∧ fp.assignedSpeed ≤ 1500 then
        some fp.assignedSpeed
      else none
    mach :=
      if 0 ≤ fp.assignedMach ∧ fp.assignedMach ≤ 10 then
        some fp.assignedMach
      else none
    arc :=
      if -50000 ≤ fp.assignedRate ∧ fp.assignedRate ≤ 50000 then
        some fp.assignedRate
      else none }

/-- Fourth stage: an in-range assigned heading overwrites `ahdg` (possibly
the sentinel 0) and clears `direct`. -/
def refreshCADMsgD (fp : FlightPlanEnv) : CADMsg :=
  if 0 ≤ fp.assignedHeading ∧ fp.assignedHeading ≤ 360 then
    { refreshCADMsgC fp with ahdg := some fp.assignedHeading, direct := some "" }
  else refreshCADMsgC fp

/-- The complete `Refresh` snapshot: a short-enough direct-to waypoint is
written last, a non-empty one forcing `ahdg` back to 0.  Later `j[key] =`
assignments overwrite earlier ones throughout the stages. -/
def refreshCADMsg (fp : FlightPlanEnv) : CADMsg :=
  match fp.directTo with
  | some d =>
    if d.length < 50 then
      if d ≠ "" then { refreshCADMsgD fp with direct := some d, ahdg := some 0 }
      else { refreshCADMsgD fp with direct := some d }
    else refreshCADMsgD fp
  | none => refreshCADMsgD fp

/-! ### Command translator -/

/-- Host-model mutations the command translator can request. -/
inductive HostAction where
  | acceptHandoff (callsign : String)
  | startTracking (callsign : String)
  | endTracking (callsign : String)
  | initiateHandoff (callsign target : String)
  | setScratchPad (callsign content : String)
  | setRoute (callsign newRoute : String)
  | amendFlightPlan (callsign : String)
  | tagFunctionSSR (callsign : String)
  | tagFunctionClearanceFlag (callsign : String)
  | setAssignedHeading (callsign : String) (heading : Int)
  | setClearedAltitude (callsign : String) (altitude : Int)
deriving DecidableEq

/-- Results of `GetConnectionType()`; only `direct`, `sweatbox` and
`playback` count as a live session in `OnTimer`. -/
inductive ConnType where
  | noConnection
  | direct
  | viaProxy
  | simulatorServer
  | playback
  | simulatorClient
  | sweatbox
deriving DecidableEq

/-- The enable condition of `OnTimer`: `CONNECTION_TYPE_DIRECT`,
`CONNECTION_TYPE_SWEATBOX` or `CONNECTION_TYPE_PLAYBACK`. -/
def ConnType.isLive : ConnType → Bool
  | .direct | .sweatbox | .playback => true
  | _ => false

/-- Everything the plugin can send out over the outbound datagram channel. -/
inductive OutEvent where
  | connectionTypeUpdate (conn : ConnType)
  | flightPlanDataUpdate (m : FPMsg)
  | controllerAssignedDataUpdate (m : CADMsg)
  | flightPlanDisconnect (m : FPDiscMsg)
  | flightPlanFlightStripPushed (m : StripPushMsg)
  | controllerPositionUpdate (m : CtrlMsg)
  | controllerDisconnect (callsign : Option String)
  | radarTargetPositionUpdate (m : RTMsg)
  | myselfUpdate (callsign : String)
deriving DecidableEq

/-- The host world an entry point runs against: the live entity tables, the
local operator, and whether a drawing-capable `DummyRadarScreen` delegate has
been created.  The enumeration lists (`FlightPlanSelectFirst/Next` etc.)
yield the host's valid entities. -/
structure HostEnv where
  flightPlans : List FlightPlanEnv := []
  radarTargets : List RadarTargetEnv := []
  controllers : List ControllerEnv := []
  myself : ControllerEnv := {}
  hasRadarScreen : Bool := false
deriving DecidableEq

/-- Model of `FlightPlanSelect` followed by the caller's `IsValid()` check: `none`
stands for a missing or invalid flight plan. -/
def flightPlanSelect (host : HostEnv) (callsign : String) : Option FlightPlanEnv :=
  host.flightPlans.find? (fun fp => fp.isValid && fp.callsign = callsign)

/-- The `handoffToMe` test of the two `assume` code paths: a non-empty handoff
target equal to the valid local operator's callsign. -/
def handoffToMe (fp : FlightPlanEnv) (myselfValid : Bool) (myCallsign : String) : Bool :=
  match fp.handoffTarget with
  | some h => h ≠ "" && (myselfValid && h = myCallsign)
  | none => false

/-- The `untracked` test: tracking-controller callsign null or empty. -/
def fpUntracked (fp : FlightPlanEnv) : Bool :=
  match fp.trackingController with
  | some t => t = ""
  | none => true

/-- Outcome of the 3-way `assume` decision. -/
inductive AssumeAction where
  | acceptHandoff
  | startTracking
  | alreadyTracked (controller : String)
deriving DecidableEq

/-- The shared 3-way decision of the `assume` command (`.efs assume` and the
inbound `assume` message): accept a handoff aimed at the local operator, else
start tracking an untracked aircraft, else report the current tracker. -/
def assumeDecision (fp : FlightPlanEnv) (myselfValid : Bool) (myCallsign : String) :
    AssumeAction :=
  if handoffToMe fp myselfValid myCallsign then .acceptHandoff
  else if fpUntracked fp then .startTracking
  else .alreadyTracked ((fp.trackingController).getD "")

/-- The 2-way `transfer` decision: hand off to the coordinated next controller
when one exists, else end tracking. -/
def transferActions (fp : FlightPlanEnv) (callsign : String) : List HostAction :=
  match fp.nextController with
  | some nextCtr => if nextCtr ≠ "" then [.initiateHandoff callsign nextCtr]
                    else [.endTracking callsign]
  | none => [.endTracking callsign]

/-- Model of `VatEFSPlugin::UpdateScratchPad`: uppercase the callsign, look the plan
up, write the content, and with `resetAfterSet` immediately write the
original pad content back.  Returns success plus the host writes. -/
def updateScratchPad (host : HostEnv) (inCallsign content : String)
    (resetAfterSet : Bool) : Bool × List HostAction :=
  let callsign := upperStr inCallsign
  match flightPlanSelect host callsign with
  | none => (false, [])
  | some fp =>
    if resetAfterSet then
      (true, [.setScratchPad callsign content,
              .setScratchPad callsign ((fp.scratchPad).getD "")])
    else
      (true, [.setScratchPad callsign content])

/-- Model of `VatEFSPlugin::UpdateMyself` (the periodic self republish): suppressed for
an invalid local controller or a bad callsign.  The runway-configuration
snapshot assembled into the same message is not referenced by any claim and
is left out of the event payload. -/
def updateMyselfEvents (host : HostEnv) : List OutEvent :=
  if ¬ host.myself.isValid then []
  else
    match host.myself.callsign with
    | some cs => if cs = "" ∨ 20 < cs.length then [] else [.myselfUpdate cs]
    | none => []

/-- Model of `VatEFSPlugin::Refresh`: per enumerated flight plan a gated
`flightPlanDataUpdate` (through the ordinary handler) plus the ungated
`controllerAssignedDataUpdate` snapshot, then the radar-target and
controller handlers over their tables. -/
def refreshEvents (disabled : Bool) (host : HostEnv) : List OutEvent :=
  (host.flightPlans.filter (fun fp => fp.isValid)).flatMap (fun fp =>
    (match onFlightPlanFlightPlanDataUpdate disabled fp with
     | some m => [OutEvent.flightPlanDataUpdate m]
     | none => []) ++
    [OutEvent.controllerAssignedDataUpdate (refreshCADMsg fp)]) ++
  (host.radarTargets.filter (fun rt => rt.isValid)).flatMap (fun rt =>
    match onRadarTargetPositionUpdate disabled rt with
    | some m => [OutEvent.radarTargetPositionUpdate m]
    | none => []) ++
  (host.controllers.filter (fun c => c.isValid)).flatMap (fun c =>
    match onControllerPositionUpdate disabled c host.myself.callsign with
    | some m => [OutEvent.controllerPositionUpdate m]
    | none => [])

/-- A parsed inbound JSON command datagram (`message["type"]` dispatch);
datagrams that are empty, do not start with `{`, or fail to parse never reach
the dispatcher and are represented by the absence of a message. -/
inductive InboundMsg where
  | setGroundState (callsign state : String)
  | setClearedToLand (callsign : String)
  | refreshCmd
  | assumeCmd (callsign : String)
  | transferCmd (callsign : String)
  | resetSquawk (callsign : String)
  | toggleClearanceFlag (callsign : String)
  | assignDepartureRunway (callsign runway : String)
  | assignSid (callsign sid : String)
  | assignHeading (callsign : String) (heading : Int)
  | assignCfl (callsign : String) (altitude : Int)
  | unknownType (typeName : String)
deriving DecidableEq

/-- The inbound-command dispatcher of `VatEFSPlugin::ReceiveUdpMessages`,
yielding the outbound events and host mutations of one datagram. -/
def processInbound (disabled : Bool) (host : HostEnv) (msg : InboundMsg) :
    List OutEvent × List HostAction :=
  match msg with
  | .setGroundState callsign state =>
    if callsign ≠ "" ∧ state ≠ "" then
      ([], (updateScratchPad host callsign state true).2)
    else ([], [])
  | .setClearedToLand callsign =>
    if callsign ≠ "" then
      ([], (updateScratchPad host callsign "/EFS/CTL" true).2)
    else ([], [])
  | .refreshCmd => (refreshEvents disabled host, [])
  | .assumeCmd inCallsign =>
    let callsign := upperStr inCallsign
    if callsign ≠ "" then
      match flightPlanSelect host callsign with
      | some fp =>
        match assumeDecision fp host.myself.isValid ((host.myself.callsign).getD "") with
        | .acceptHandoff => ([], [.acceptHandoff callsign])
        | .startTracking =>
          ((match onFlightPlanFlightPlanDataUpdate disabled fp with
            | some m => [OutEvent.flightPlanDataUpdate m]
            | none => []),
           [.startTracking callsign])
        | .alreadyTracked _ => ([], [])
      | none => ([], [])
    else ([], [])
  | .transferCmd inCallsign =>
    let callsign := upperStr inCallsign
    if callsign ≠ "" then
      match flightPlanSelect host callsign with
      | some fp => ([], transferActions fp callsign)
      | none => ([], [])
    else ([], [])
  | .resetSquawk callsign =>
    if host.hasRadarScreen then ([], [.tagFunctionSSR (upperStr callsign)]) else ([], [])
  | .toggleClearanceFlag callsign =>
    if host.hasRadarScreen then ([], [.tagFunctionClearanceFlag (upperStr callsign)])
    else ([], [])
  | .assignDepartureRunway inCallsign runway =>
    let callsign := upperStr inCallsign
    match flightPlanSelect host callsign with
    | some fp =>
      let newRoute :=
        assignDepartureRunwayRoute ((fp.origin).getD "") runway ((fp.route).getD "")
      ([], [.setRoute callsign newRoute, .amendFlightPlan callsign])
    | none => ([], [])
  | .assignSid inCallsign sid =>
    let callsign := upperStr inCallsign
    match flightPlanSelect host callsign with
    | some fp =>
      let newRoute := assignSidRoute sid ((fp.depRwy).getD "") ((fp.route).getD "")
      ([], [.setRoute callsign newRoute, .amendFlightPlan callsign])
    | none => ([], [])
  | .assignHeading inCallsign heading =>
    let callsign := upperStr inCallsign
    match flightPlanSelect host callsign with
    | some _ => ([], [.setAssignedHeading callsign heading])
    | none => ([], [])
  | .assignCfl inCallsign altitude =>
    let callsign := upperStr inCallsign
    match flightPlanSelect host callsign with
    | some _ => ([], [.setClearedAltitude callsign altitude])
    | none => ([], [])
  | .unknownType _ => ([], [])

/-! ### Lifecycle controller -/

/-- The persistent plugin fields owned by the lifecycle controller
(`disabled`, `winsockInitialized`, `udpReceiveSocket`, `enabledTime`);
the socket is the bound local port when open. -/
structure LifecycleState where
  disabled : Bool
  winsockInitialized : Bool
  udpReceiveSocket : Option Nat
  enabledTime : Nat
deriving DecidableEq

/-- The constructor state: disabled until connected, no socket. -/
def initialState : LifecycleState :=
  { disabled := true, winsockInitialized := false, udpReceiveSocket := none,
    enabledTime := 0 }

/-- A representative Enabled state: live session, socket bound to 17772. -/
def enabledSampleState : LifecycleState :=
  { disabled := false, winsockInitialized := true,
    udpReceiveSocket := some 17772, enabledTime := 100 }

/-- Model of `VatEFSPlugin::ReceiveUdpMessages`: a poll with no socket is an immediate
no-op; otherwise at most one datagram (already parsed, `none` covering
no-data / non-`{` payloads / parse failures, all absorbed) is dispatched. -/
def receiveUdpMessages (st : LifecycleState) (host : HostEnv)
    (datagram : Option InboundMsg) : List OutEvent × List HostAction :=
  match st.udpReceiveSocket with
  | none => ([], [])
  | some _ =>
    match datagram with
    | none => ([], [])
    | some msg => processInbound st.disabled host msg

/-- The shared tail of `OnTimer` after the lifecycle branches (the enable
branch has no `return` and falls through here too): the non-blocking poll of
at most one datagram, the 10-second grace return after enabling, and the
every-5th-tick self republish. -/
def onTimerTail (st : LifecycleState) (counter now : Nat) (host : HostEnv)
    (datagram : Option InboundMsg) : List OutEvent × List HostAction :=
  let received := receiveUdpMessages st host datagram
  if now - st.enabledTime < 10 then received
  else if counter % 5 = 0 then (received.1 ++ updateMyselfEvents host, received.2)
  else received

/-- Model of `VatEFSPlugin::OnTimer`.  `envOk` is whether the Winsock startup and the
socket create/non-blocking/bind sequence succeed on this enable attempt
(failures only display a message and leave the socket closed).  The enable
branch publishes the connection-type event and then falls through to the
poll tail with the freshly enabled state; the disable and stay-disabled
branches return early.  Returns the new lifecycle state, the published
events and the requested host mutations. -/
def onTimer (st : LifecycleState) (conn : ConnType) (counter now : Nat)
    (envOk : Bool) (host : HostEnv) (datagram : Option InboundMsg) :
    LifecycleState × List OutEvent × List HostAction :=
  if st.disabled ∧ conn.isLive then
    let winsock := st.winsockInitialized ∨ envOk
    let socket :=
      match st.udpReceiveSocket with
      | some p => some p
      | none => if winsock ∧ envOk then some 17772 else none
    let enabledState : LifecycleState :=
      { disabled := false, winsockInitialized := winsock,
        udpReceiveSocket := socket, enabledTime := now }
    let tail := onTimerTail enabledState counter now host datagram
    (enabledState, OutEvent.connectionTypeUpdate conn :: tail.1, tail.2)
  else if ¬ st.disabled ∧ ¬ conn.isLive then
    ({ disabled := true, winsockInitialized := false, udpReceiveSocket := none,
       enabledTime := st.enabledTime },
     [OutEvent.connectionTypeUpdate conn], [])
  else if st.disabled then (st, [], [])
  else (st, onTimerTail st counter now host datagram)

/-- Model of `VatEFSPlugin::OnCompileCommand` (the `.efs` operator command hook):
whether the command was consumed, plus events and host mutations.  The
`debug` subcommand only flips the debug flag; `scratch`/`scratmp`, `ssr` and
`clr` forward to `UpdateScratchPad` and the tag-function delegate. -/
def onCompileCommand (st : LifecycleState) (host : HostEnv) (command : String) :
    Bool × List OutEvent × List HostAction :=
  if ¬ strStarts ".efs " command then (false, [], [])
  else
    let rest := strDropChars 5 command
    let subcommand := (splitFirstWord rest).1
    let remainder := (splitFirstWord rest).2
    if subcommand = "debug" then (true, [], [])
    else if subcommand = "assume" then
      let callsign := upperStr (splitFirstWord remainder).1
      if callsign = "" then (false, [], [])
      else
        match flightPlanSelect host callsign with
        | none => (false, [], [])
        | some fp =>
          match assumeDecision fp host.myself.isValid ((host.myself.callsign).getD "") with
          | .acceptHandoff => (true, [], [.acceptHandoff callsign])
          | .startTracking => (true, [], [.startTracking callsign])
          | .alreadyTracked _ => (true, [], [])
    else if subcommand = "transfer" then
      let callsign := upperStr (splitFirstWord remainder).1
      if callsign = "" then (false, [], [])
      else
        match flightPlanSelect host callsign with
        | none => (false, [], [])
        | some fp => (true, [], transferActions fp callsign)
    else if subcommand = "scratch" ∨ subcommand = "scratmp" then
      let callsign := (splitFirstWord remainder).1
      let content := (splitFirstWord remainder).2
      (true, [], (updateScratchPad host callsign content (subcommand = "scratmp")).2)
    else if subcommand = "ssr" then
      if remainder = "" then (false, [], [])
      else if host.hasRadarScreen then (true, [], [.tagFunctionSSR (upperStr remainder)])
      else (true, [], [])
    else if subcommand = "clr" then
      if remainder = "" then (false, [], [])
      else if host.hasRadarScreen then
        (true, [], [.tagFunctionClearanceFlag (upperStr remainder)])
      else (true, [], [])
    else if subcommand = "refresh" then
      (true, refreshEvents st.disabled host, [])
    else (false, [], [])

/-- Lifecycle states reachable from the constructor state.  Only `OnTimer`
writes the lifecycle fields: the event handlers and the command hook read
`disabled` but mutate nothing (their models return events and host actions
only), so timer steps are the whole transition relation. -/
inductive Reachable : LifecycleState → Prop
  | init : Reachable initialState
  | timer (s : LifecycleState) (conn : ConnType) (counter now : Nat) (envOk : Bool)
      (host : HostEnv) (datagram : Option InboundMsg) :
      Reachable s → Reachable (onTimer s conn counter now envOk host datagram).1

/-! ### Entry-point exception boundaries -/

/-- An exception crossing an entry point: a typed `std::exception` with its
`what()` text, or anything else. -/
inductive HostException where
  | typed (what : String)
  | untyped
deriving DecidableEq

/-- What the host observes of one entry-point invocation. -/
inductive EntryOutcome where
  | normal
  | operatorMessage (text : String)
  | propagated (e : HostException)
deriving DecidableEq

/-- The `try { ... } catch (const std::exception &) { ... } catch (...) { ... }`
wrapper used by the guarded entry points: any exception from the body becomes
an operator-visible message. -/
def guardedEntry (entryName : String) (body : Except HostException Unit) :
    EntryOutcome :=
  match body with
  | .ok _ => .normal
  | .error (.typed w) => .operatorMessage (entryName ++ " exception: " ++ w)
  | .error .untyped => .operatorMessage (entryName ++ ": Unknown exception")

/-- An entry point whose body is not wrapped: an exception leaves the plugin
and reaches the host. -/
def unguardedEntry (body : Except HostException Unit) : EntryOutcome :=
  match body with
  | .ok _ => .normal
  | .error e => .propagated e

/-- Exception boundary of `OnFlightPlanFlightPlanDataUpdate` (the source
wraps the body in try/catch-all). -/
def onFlightPlanFlightPlanDataUpdateBoundary (body : Except HostException Unit) :
    EntryOutcome :=
  guardedEntry "OnFlightPlanFlightPlanDataUpdate" body

/-- Exception boundary of `OnFlightPlanControllerAssignedDataUpdate`
(wrapped in the source). -/
def onFlightPlanControllerAssignedDataUpdateBoundary
    (body : Except HostException Unit) : EntryOutcome :=
  guardedEntry "OnFlightPlanControllerAssignedDataUpdate" body

/-- Exception boundary of `OnTimer` (wrapped in the source). -/
def onTimerBoundary (body : Except HostException Unit) : EntryOutcome :=
  guardedEntry "OnTimer" body

/-- Exception boundary of `OnFlightPlanDisconnect`: the source has no
try/catch in this callback. -/
def onFlightPlanDisconnectBoundary (body : Except HostException Unit) :
    EntryOutcome :=
  unguardedEntry body

/-- Exception boundary of `OnFlightPlanFlightStripPushed` (no try/catch in
the source). -/
def onFlightPlanFlightStripPushedBoundary (body : Except HostException Unit) :
    EntryOutcome :=
  unguardedEntry body

/-- Exception boundary of `OnControllerPositionUpdate` (no try/catch in the
source). -/
def onControllerPositionUpdateBoundary (body : Except HostException Unit) :
    EntryOutcome :=
  unguardedEntry body

/-- Exception boundary of `OnControllerDisconnect` (no try/catch in the
source). -/
def onControllerDisconnectBoundary (body : Except HostException Unit) :
    EntryOutcome :=
  unguardedEntry body

/-- Exception boundary of `OnRadarTargetPositionUpdate` (no try/catch in the
source). -/
def onRadarTargetPositionUpdateBoundary (body : Except HostException Unit) :
    EntryOutcome :=
  unguardedEntry body

/-- Exception boundary of `OnCompileCommand` (no try/catch in the source). -/
def onCompileCommandBoundary (body : Except HostException Unit) : EntryOutcome :=
  unguardedEntry body

/-! ### Concrete fixtures and claim-side predicates -/

/-- The suppression condition of the flight-plan pre-filter claim, as the
claim states it: origin and destination both lack the `ES` country filter
(or one of them is missing or shorter than 2 characters, or the plan is
invalid or its data not fully received). -/
def filterClaimAntecedent (fp : FlightPlanEnv) : Bool :=
  fp.isValid = false || fp.received = false ||
    match fp.origin, fp.destination with
    | some o, some d =>
      o.length < 2 || d.length < 2 || (!strStarts "ES" o && !strStarts "ES" d)
    | _, _ => true

/-- A flight plan that passes the pre-filter and has every range-bounded
controller-assigned value exactly on a boundary of its declared range. -/
def boundaryFP : FlightPlanEnv :=
  { callsign := "SAS1", origin := some "ESSA", destination := some "ESGG",
    assignedHeading := 360, assignedSpeed := 1500, assignedMach := 10,
    assignedRate := -50000 }

/-- A flight plan that passes the pre-filter and carries a cleared altitude
just above the claimed 100000 ft upper bound. -/
def overCflFP : FlightPlanEnv :=
  { callsign := "SAS123", origin := some "ESSA", destination := some "ENGM",
    clearedAltitude := 100001 }

/-- Shape of `SanitizeUtf8` output: non-NUL ASCII bytes (including the `?`
placeholder) and complete lead-plus-continuations sequences. -/
inductive CleanBytes : List Nat → Prop
  | nil : CleanBytes []
  | ascii {c : Nat} {rest : List Nat} : c ≠ 0 → c ≤ 0x7F → CleanBytes rest →
      CleanBytes (c :: rest)
  | seq {c : Nat} {cs rest : List Nat} : leadContinuations c = some cs.length →
      (∀ x ∈ cs, isContByte x = true) → CleanBytes rest →
      CleanBytes (c :: (cs ++ rest))

/-- Invariant of the `sanitizeAux` accumulator: empty when no sequence is in
progress, or an in-progress sequence whose lead byte still expects `k` more
continuation bytes. -/
def SeqInv (seq : List Nat) (k : Nat) : Prop :=
  (seq = [] ∧ k = 0) ∨
    (0 < k ∧ ∃ lead cs, seq = lead :: cs ∧
      leadContinuations lead = some (cs.length + k) ∧
      ∀ x ∈ cs, isContByte x = true)

/-! ## Theorems -/

/-- The executable substring search agrees with list-infix containment for
non-empty patterns, so `find(pat) != npos` can be read as `pat <:+: l`. -/
theorem listContains_spec (pat : List Char) (hpat : pat ≠ []) :
    ∀ l : List Char, listContains pat l = true ↔ List.IsInfix pat l := by
  intro l
  induction l with
  | nil => simp [listContains, List.infix_nil, hpat]
  | cons c rest ih =>
    simp only [listContains, Bool.or_eq_true, List.isPrefixOf_iff_prefix, ih,
      List.infix_cons_iff]

/-- C10: `IsValidUtf8` applied to a null pointer returns true, and
`SetJsonIfValidUtf8` with a null value pointer leaves the JSON object
unchanged, so an absent host string never produces a JSON field and never
crashes the validator. -/
theorem nullPointerEncodingBoundary :
    isValidUtf8 none = true ∧
      ∀ (j : JsonStrObj) (key : String), setJsonIfValidUtf8 j key none = j :=
  ⟨rfl, fun _ _ => rfl⟩

/-- C4 counterexample: the scratch-pad value `GRP/S/` contains the `GRP/S/`
marker, so the claim as stated puts it in the `stand` field (holding the
empty remainder after the marker), but the code requires strictly more than
6 characters and classifies it as a verbatim `scratch` field instead. -/
theorem scratchMarkerCounterexample :
    List.IsInfix "GRP/S/".data "GRP/S/".data ∧
      classifyScratch "GRP/S/" = ScratchClass.scratchText "GRP/S/" ∧
      classifyScratch "GRP/S/" ≠ ScratchClass.stand "" :=
  ⟨List.infix_rfl, by decide, by decide⟩

/-- C4 (amended): for every scratch-pad string of at most 50 characters the
classification is total, mutually exclusive and first-match-wins in source
order: the exact tokens `LINEUP`/`ONFREQ`/`DE-ICE` give a `groundstate`
field with that value; the exact literal `/EFS/CTL` gives
`clearedToLand = true`; a value of strictly more than 6 characters
containing the substring `GRP/S/` gives a `stand` field holding everything
after the first 6 characters (so `GRP/S/A1` gives stand `A1`); every other
value passes through verbatim as a `scratch` field. -/
theorem scratchReclassificationTotal (s : String) (hlen : s.length ≤ 50) :
    ((s = "LINEUP" ∨ s = "ONFREQ" ∨ s = "DE-ICE") →
      classifyScratch s = ScratchClass.groundstate s) ∧
    (s = "/EFS/CTL" → classifyScratch s = ScratchClass.clearedToLand) ∧
    ((s ≠ "LINEUP" ∧ s ≠ "ONFREQ" ∧ s ≠ "DE-ICE") → s ≠ "/EFS/CTL" →
      6 < s.length → List.IsInfix "GRP/S/".data s.data →
      classifyScratch s = ScratchClass.stand (strDropChars 6 s)) ∧
    ((s ≠ "LINEUP" ∧ s ≠ "ONFREQ" ∧ s ≠ "DE-ICE") → s ≠ "/EFS/CTL" →
      ¬ (6 < s.length ∧ List.IsInfix "GRP/S/".data s.data) →
      classifyScratch s = ScratchClass.scratchText s) := by
  refine ⟨?_, ?_, ?_, ?_⟩
  · intro h
    unfold classifyScratch
    rw [if_pos h]
  · rintro rfl
    decide
  · rintro ⟨h1, h2, h3⟩ h4 h5 h6
    unfold classifyScratch
    rw [if_neg (by simp [h1, h2, h3]), if_neg h4,
      if_pos ⟨h5, (listContains_spec "GRP/S/".data (by decide) s.data).mpr h6⟩]
  · rintro ⟨h1, h2, h3⟩ h4 h5
    unfold classifyScratch
    rw [if_neg (by simp [h1, h2, h3]), if_neg h4, if_neg ?_]
    rintro ⟨ha, hb⟩
    exact h5 ⟨ha, (listContains_spec "GRP/S/".data (by decide) s.data).mp hb⟩

/-- Witness for the amended C4 at the concrete inputs of the claim. -/
theorem scratchReclassificationTotalWitness :
    classifyScratch "GRP/S/A1" = ScratchClass.stand (strDropChars 6 "GRP/S/A1") ∧
      strDropChars 6 "GRP/S/A1" = "A1" ∧
      classifyScratch "LINEUP" = ScratchClass.groundstate "LINEUP" ∧
      classifyScratch "/EFS/CTL" = ScratchClass.clearedToLand :=
  ⟨(scratchReclassificationTotal "GRP/S/A1" (by decide)).2.2.1
      (by decide) (by decide) (by decide)
      ((listContains_spec "GRP/S/".data (by decide) "GRP/S/A1".data).mp (by decide)),
   by decide,
   (scratchReclassificationTotal "LINEUP" (by decide)).1 (Or.inl rfl),
   (scratchReclassificationTotal "/EFS/CTL" (by decide)).2.1 rfl⟩

/-- C2 counterexample: a temporary/cleared-altitude update with cleared
altitude 100001 ft (outside the claimed 0–100000 bound) still carries
`cfl = 100001` in the emitted JSON object. -/
theorem cflOutOfRangeEmitted :
    (onFlightPlanControllerAssignedDataUpdate false overCflFP
        CTR_DATA_TYPE_TEMPORARY_ALTITUDE).map CADMsg.cflVal = some (some 100001) := by
  decide

/-- The refresh snapshot always carries the cleared altitude. -/
theorem refreshCADMsg_cflVal (fp : FlightPlanEnv) :
    (refreshCADMsg fp).cflVal = some fp.clearedAltitude := by
  have h1 : (refreshCADMsg fp).cflVal = (refreshCADMsgD fp).cflVal := by
    unfold refreshCADMsg
    cases fp.directTo <;> dsimp only
    all_goals first
    | rfl
    | (split_ifs <;> rfl)
  have h2 : (refreshCADMsgD fp).cflVal = (refreshCADMsgC fp).cflVal := by
    unfold refreshCADMsgD
    split_ifs <;> rfl
  have h4 : (refreshCADMsgB fp).cflVal = some fp.clearedAltitude := by
    unfold refreshCADMsgB
    split_ifs <;> rfl
  rw [h1, h2]
  exact h4

/-- The refresh snapshot carries the assigned speed exactly when in range. -/
theorem refreshCADMsg_asp (fp : FlightPlanEnv) :
    (refreshCADMsg fp).asp =
      if 0 ≤ fp.assignedSpeed ∧ fp.assignedSpeed ≤ 1500 then some fp.assignedSpeed
      else none := by
  have h1 : (refreshCADMsg fp).asp = (refreshCADMsgD fp).asp := by
    unfold refreshCADMsg
    cases fp.directTo <;> dsimp only
    all_goals first
    | rfl
    | (split_ifs <;> rfl)
  have h2 : (refreshCADMsgD fp).asp = (refreshCADMsgC fp).asp := by
    unfold refreshCADMsgD
    split_ifs <;> rfl
  rw [h1, h2]
  rfl

/-- The refresh snapshot carries the assigned Mach exactly when in range. -/
theorem refreshCADMsg_mach (fp : FlightPlanEnv) :
    (refreshCADMsg fp).mach =
      if 0 ≤ fp.assignedMach ∧ fp.assignedMach ≤ 10 then some fp.assignedMach
      else none := by
  have h1 : (refreshCADMsg fp).mach = (refreshCADMsgD fp).mach := by
    unfold refreshCADMsg
    cases fp.directTo <;> dsimp only
    all_goals first
    | rfl
    | (split_ifs <;> rfl)
  have h2 : (refreshCADMsgD fp).mach = (refreshCADMsgC fp).mach := by
    unfold refreshCADMsgD
    split_ifs <;> rfl
  rw [h1, h2]
  rfl

/-- The refresh snapshot carries the assigned vertical rate exactly when in
range. -/
theorem refreshCADMsg_arc (fp : FlightPlanEnv) :
    (refreshCADMsg fp).arc =
      if -50000 ≤ fp.assignedRate ∧ fp.assignedRate ≤ 50000 then
        some fp.assignedRate
      else none := by
  have h1 : (refreshCADMsg fp).arc = (refreshCADMsgD fp).arc := by
    unfold refreshCADMsg
    cases fp.directTo <;> dsimp only
    all_goals first
    | rfl
    | (split_ifs <;> rfl)
  have h2 : (refreshCADMsgD fp).arc = (refreshCADMsgC fp).arc := by
    unfold refreshCADMsgD
    split_ifs <;> rfl
  rw [h1, h2]
  rfl

/-- Every `ahdg` value the refresh snapshot can carry (an in-range assigned
heading, or the sentinel 0 written by the cleared-altitude and direct-to
rules) lies within 0-360. -/
theorem refreshCADMsg_ahdg_bounded (fp : FlightPlanEnv) :
    ∀ v, (refreshCADMsg fp).ahdg = some v → 0 ≤ v ∧ v ≤ 360 := by
  have hB : ∀ v, (refreshCADMsgB fp).ahdg = some v → 0 ≤ v ∧ v ≤ 360 := by
    intro v hv
    unfold refreshCADMsgB at hv
    split_ifs at hv
    · dsimp only at hv
      injection hv with hv
      omega
    · simp [refreshCADMsgA] at hv
  have hD : ∀ v, (refreshCADMsgD fp).ahdg = some v → 0 ≤ v ∧ v ≤ 360 := by
    intro v hv
    unfold refreshCADMsgD at hv
    split_ifs at hv with hr
    · dsimp only at hv
      injection hv with hv
      omega
    · exact hB v hv
  intro v hv
  unfold refreshCADMsg at hv
  revert hv
  cases fp.directTo <;> dsimp only <;> intro hv
  · exact hD v hv
  · split_ifs at hv
    · dsimp only at hv
      injection hv with hv
      omega
    · exact hD v hv
    · exact hD v hv

/-- C2 (amended): whenever a temporary/cleared-altitude update publishes an
event at all, the `cfl` field is included with the host value unchanged —
the code applies no 0–100000 range check to the cleared altitude (unlike the
final altitude), and the periodic refresh snapshot likewise always carries
it. -/
theorem cflAlwaysEmitted (fp : FlightPlanEnv) (hf : filterFlightPlan fp = true)
    (hcs : ¬ (fp.callsign = "" ∨ 20 < fp.callsign.length)) :
    (onFlightPlanControllerAssignedDataUpdate false fp
        CTR_DATA_TYPE_TEMPORARY_ALTITUDE).map CADMsg.cflVal =
      some (some fp.clearedAltitude) ∧
    (refreshCADMsg fp).cflVal = some fp.clearedAltitude := by
  constructor
  · unfold onFlightPlanControllerAssignedDataUpdate
    rw [if_neg (by simp [hf]), if_neg hcs, if_neg (by decide), if_neg (by decide),
      if_neg (by decide), if_pos rfl]
    split_ifs <;> rfl
  · exact refreshCADMsg_cflVal fp

/-- Witness for the amended C2 at the out-of-range cleared altitude. -/
theorem cflAlwaysEmittedWitness :
    (onFlightPlanControllerAssignedDataUpdate false overCflFP
        CTR_DATA_TYPE_TEMPORARY_ALTITUDE).map CADMsg.cflVal = some (some 100001) ∧
      (refreshCADMsg overCflFP).cflVal = some 100001 :=
  cflAlwaysEmitted overCflFP (by decide) (by decide)

/-- C1: when the origin and destination both lack the `ES` filter start (or
either is missing or shorter than 2 characters, or the plan is invalid or its
data not fully received), none of the four flight-plan event handlers
publishes an outbound JSON event. -/
theorem flightPlanFilterSuppression (disabled : Bool) (fp : FlightPlanEnv)
    (dataType : Int) (senderController targetController : Option String)
    (h : filterClaimAntecedent fp = true) :
    onFlightPlanFlightPlanDataUpdate disabled fp = none ∧
    onFlightPlanControllerAssignedDataUpdate disabled fp dataType = none ∧
    onFlightPlanDisconnect disabled fp = none ∧
    onFlightPlanFlightStripPushed disabled fp senderController targetController =
      none := by
  have hf : filterFlightPlan fp = false := by
    unfold filterClaimAntecedent at h
    unfold filterFlightPlan
    revert h
    rcases fp.origin with _ | o <;> rcases fp.destination with _ | d <;>
        intro h <;> dsimp only at h ⊢
    · split_ifs <;> rfl
    · split_ifs <;> rfl
    · split_ifs <;> rfl
    · simp only [Bool.or_eq_true, Bool.and_eq_true, Bool.not_eq_true',
        decide_eq_true_eq] at h
      split_ifs with hc1 hc2 hc3 hc4 hc5 <;> try rfl
      exfalso
      rcases h with (h | h) | h
      · simp_all
      · simp_all
      · rcases h with (h | h) | ⟨ha, hb⟩
        · exact hc4 (Or.inl h)
        · exact hc4 (Or.inr h)
        · exact hc5 ⟨by simp [ha], by simp [hb]⟩
  have hcond : disabled = true ∨ ¬ filterFlightPlan fp = true := Or.inr (by simp [hf])
  refine ⟨?_, ?_, ?_, ?_⟩
  · unfold onFlightPlanFlightPlanDataUpdate
    rw [if_pos hcond]
  · unfold onFlightPlanControllerAssignedDataUpdate
    rw [if_pos hcond]
  · unfold onFlightPlanDisconnect
    rw [if_pos hcond]
  · unfold onFlightPlanFlightStripPushed
    rw [if_pos hcond]

/-- Witness for C1: a Frankfurt–London plan (neither airport code starts
with `ES`) produces no event from any of the four handlers. -/
theorem flightPlanFilterSuppressionWitness :
    onFlightPlanFlightPlanDataUpdate false
        { callsign := "DLH1", origin := some "EDDF", destination := some "EGLL" } =
        none ∧
      onFlightPlanControllerAssignedDataUpdate false
        { callsign := "DLH1", origin := some "EDDF", destination := some "EGLL" }
        CTR_DATA_TYPE_TEMPORARY_ALTITUDE = none ∧
      onFlightPlanDisconnect false
        { callsign := "DLH1", origin := some "EDDF", destination := some "EGLL" } =
        none ∧
      onFlightPlanFlightStripPushed false
        { callsign := "DLH1", origin := some "EDDF", destination := some "EGLL" }
        none none = none :=
  flightPlanFilterSuppression false _ CTR_DATA_TYPE_TEMPORARY_ALTITUDE none none
    (by decide)

/-- C8: for controller-assigned updates of the range-bounded numeric
sub-types (heading 0–360, speed 0–1500, Mach 0.0–10.0, vertical rate
-50000–50000), a value is carried in the emitted JSON object exactly when it
is inside its range (so boundary values are included and out-of-range values
never appear), and the refresh snapshot applies the same gating (its `ahdg`
key, which sentinel rules may overwrite with 0, always stays in 0–360). -/
theorem numericRangeGating (fp : FlightPlanEnv) (hf : filterFlightPlan fp = true)
    (hcs : ¬ (fp.callsign = "" ∨ 20 < fp.callsign.length)) :
    ((onFlightPlanControllerAssignedDataUpdate false fp
        CTR_DATA_TYPE_HEADING).map CADMsg.ahdg =
      some (if 0 ≤ fp.assignedHeading ∧ fp.assignedHeading ≤ 360
            then some fp.assignedHeading else none)) ∧
    ((onFlightPlanControllerAssignedDataUpdate false fp
        CTR_DATA_TYPE_SPEED).map CADMsg.asp =
      some (if 0 ≤ fp.assignedSpeed ∧ fp.assignedSpeed ≤ 1500
            then some fp.assignedSpeed else none)) ∧
    ((onFlightPlanControllerAssignedDataUpdate false fp
        CTR_DATA_TYPE_MACH).map CADMsg.mach =
      some (if 0 ≤ fp.assignedMach ∧ fp.assignedMach ≤ 10
            then some fp.assignedMach else none)) ∧
    ((onFlightPlanControllerAssignedDataUpdate false fp
        CTR_DATA_TYPE_RATE).map CADMsg.arc =
      some (if -50000 ≤ fp.assignedRate ∧ fp.assignedRate ≤ 50000
            then some fp.assignedRate else none)) ∧
    (∀ v, (refreshCADMsg fp).ahdg = some v → 0 ≤ v ∧ v ≤ 360) ∧
    ((refreshCADMsg fp).asp =
      if 0 ≤ fp.assignedSpeed ∧ fp.assignedSpeed ≤ 1500
      then some fp.assignedSpeed else none) ∧
    ((refreshCADMsg fp).mach =
      if 0 ≤ fp.assignedMach ∧ fp.assignedMach ≤ 10
      then some fp.assignedMach else none) ∧
    ((refreshCADMsg fp).arc =
      if -50000 ≤ fp.assignedRate ∧ fp.assignedRate ≤ 50000
      then some fp.assignedRate else none) := by
  refine ⟨?_, ?_, ?_, ?_, ?_, ?_, ?_, ?_⟩
  · unfold onFlightPlanControllerAssignedDataUpdate
    rw [if_neg (by simp [hf]), if_neg hcs, if_neg (by decide), if_neg (by decide),
      if_neg (by decide), if_neg (by decide), if_neg (by decide),
      if_neg (by decide), if_neg (by decide), if_neg (by decide),
      if_neg (by decide), if_neg (by decide), if_neg (by decide),
      if_neg (by decide), if_pos rfl]
    split_ifs <;> rfl
  · unfold onFlightPlanControllerAssignedDataUpdate
    rw [if_neg (by simp [hf]), if_neg hcs, if_neg (by decide), if_neg (by decide),
      if_neg (by decide), if_neg (by decide), if_neg (by decide),
      if_neg (by decide), if_neg (by decide), if_neg (by decide), if_pos rfl]
    rfl
  · unfold onFlightPlanControllerAssignedDataUpdate
    rw [if_neg (by simp [hf]), if_neg hcs, if_neg (by decide), if_neg (by decide),
      if_neg (by decide), if_neg (by decide), if_neg (by decide),
      if_neg (by decide), if_neg (by decide), if_neg (by decide),
      if_neg (by decide), if_pos rfl]
    rfl
  · unfold onFlightPlanControllerAssignedDataUpdate
    rw [if_neg (by simp [hf]), if_neg hcs, if_neg (by decide), if_neg (by decide),
      if_neg (by decide), if_neg (by decide), if_neg (by decide),
      if_neg (by decide), if_neg (by decide), if_neg (by decide),
      if_neg (by decide), if_neg (by decide), if_pos rfl]
    rfl
  · exact refreshCADMsg_ahdg_bounded fp
  · exact refreshCADMsg_asp fp
  · exact refreshCADMsg_mach fp
  · exact refreshCADMsg_arc fp

/-- Witness for C8: every boundary value (heading 360, speed 1500, Mach 10.0,
rate -50000) is included in the emitted object. -/
theorem numericRangeGatingWitness :
    ((onFlightPlanControllerAssignedDataUpdate false boundaryFP
        CTR_DATA_TYPE_HEADING).map CADMsg.ahdg = some (some 360)) ∧
    ((onFlightPlanControllerAssignedDataUpdate false boundaryFP
        CTR_DATA_TYPE_SPEED).map CADMsg.asp = some (some 1500)) ∧
    ((onFlightPlanControllerAssignedDataUpdate false boundaryFP
        CTR_DATA_TYPE_MACH).map CADMsg.mach = some (some 10)) ∧
    ((onFlightPlanControllerAssignedDataUpdate false boundaryFP
        CTR_DATA_TYPE_RATE).map CADMsg.arc = some (some (-50000))) := by
  have h := numericRangeGating boundaryFP (by decide) (by decide)
  refine ⟨?_, ?_, ?_, ?_⟩
  · rw [h.1]; decide
  · rw [h.2.1]; decide
  · rw [h.2.2.1]; decide
  · rw [h.2.2.2.1]; decide

/-- C3 (the handlers without a boundary, evaluated at a throwing body): the
flight-plan-disconnect and controller-position callbacks have no try/catch,
so an exception from their bodies propagates into the host; the wrapped
data-update and timer callbacks convert the same exception into an
operator-visible message. -/
theorem entryPointExceptionEscape :
    onFlightPlanDisconnectBoundary (Except.error HostException.untyped) =
        EntryOutcome.propagated HostException.untyped ∧
      onControllerPositionUpdateBoundary (Except.error HostException.untyped) =
        EntryOutcome.propagated HostException.untyped ∧
      onCompileCommandBoundary (Except.error HostException.untyped) =
        EntryOutcome.propagated HostException.untyped ∧
      onFlightPlanFlightPlanDataUpdateBoundary (Except.error HostException.untyped) =
        EntryOutcome.operatorMessage
          "OnFlightPlanFlightPlanDataUpdate: Unknown exception" ∧
      onTimerBoundary (Except.error HostException.untyped) =
        EntryOutcome.operatorMessage "OnTimer: Unknown exception" :=
  ⟨rfl, rfl, rfl, rfl, rfl⟩

/-- Characters before a first occurrence, all passing the scan predicate,
are exactly what `takeWhile` keeps. -/
theorem takeWhile_ne_append (x : Char) (a b : List Char) (ha : ∀ c ∈ a, c ≠ x) :
    (a ++ x :: b).takeWhile (· ≠ x) = a := by
  induction a with
  | nil => simp
  | cons c a ih =>
    have hc : c ≠ x := ha c (by simp)
    have ih2 := ih (fun d hd => ha d (by simp [hd]))
    simp only [List.cons_append, List.takeWhile_cons]
    simp [hc]
    simpa using ih2

/-- The first occurrence and everything after it is what `dropWhile`
returns. -/
theorem dropWhile_ne_append (x : Char) (a b : List Char) (ha : ∀ c ∈ a, c ≠ x) :
    (a ++ x :: b).dropWhile (· ≠ x) = x :: b := by
  induction a with
  | nil => simp
  | cons c a ih =>
    have hc : c ≠ x := ha c (by simp)
    have ih2 := ih (fun d hd => ha d (by simp [hd]))
    simp only [List.cons_append, List.dropWhile_cons]
    simp [hc]
    simpa using ih2

/-- Splitting a word followed by a space recovers the word and the rest. -/
theorem splitFirstWord_append (ft rest : String) (h : ∀ c ∈ ft.data, c ≠ ' ') :
    splitFirstWord (ft ++ " " ++ rest) = (ft, rest) := by
  have hdata : (ft ++ " " ++ rest).data = ft.data ++ ' ' :: rest.data := by simp
  unfold splitFirstWord
  rw [List.span_eq_take_drop, hdata, dropWhile_ne_append ' ' _ _ h,
    takeWhile_ne_append ' ' _ _ h]

/-- A string without spaces is a single word. -/
theorem splitFirstWord_of_no_space (s : String) (h : ∀ c ∈ s.data, c ≠ ' ') :
    splitFirstWord s = (s, "") := by
  unfold splitFirstWord
  rw [List.span_eq_take_drop, List.dropWhile_eq_nil_iff.mpr (by simpa using h)]

/-- Splitting at the first slash of `pre ++ "/" ++ post` (no slash in `pre`)
yields the two sides. -/
theorem splitAtSlash_append (pre post : String) (h : ∀ c ∈ pre.data, c ≠ '/') :
    splitAtSlash (pre ++ "/" ++ post) = some (pre, post) := by
  have hdata : (pre ++ "/" ++ post).data = pre.data ++ '/' :: post.data := by simp
  unfold splitAtSlash
  rw [List.span_eq_take_drop, hdata, dropWhile_ne_append '/' _ _ h,
    takeWhile_ne_append '/' _ _ h]

/-- A slash-free term has no slash split. -/
theorem splitAtSlash_of_no_slash (s : String) (h : ∀ c ∈ s.data, c ≠ '/') :
    splitAtSlash s = none := by
  unfold splitAtSlash
  rw [List.span_eq_take_drop, List.dropWhile_eq_nil_iff.mpr (by simpa using h)]

/-- Every character of a pilot-filed-SID-shaped token is an uppercase letter
or a digit. -/
theorem isSidPattern_chars (ft : String) (h : isSidPattern ft = true) :
    ∀ c ∈ ft.data, c.isUpper = true ∨ c.isDigit = true := by
  unfold isSidPattern at h
  rcases hd : ft.data with _ | ⟨c0, _ | ⟨c1, _ | ⟨c2, _ | ⟨c3, _ | ⟨c4, _ | ⟨c5,
    _ | ⟨c6, _ | ⟨c7, l⟩⟩⟩⟩⟩⟩⟩⟩ <;> rw [hd] at h <;> simp_all

/-- C5: route rewriting for `assignDepartureRunway` with departure airport
`ESSA` and runway `19L`: a first token with a slash keeps its head and gets
the runway side replaced; a pilot-filed-SID-shaped first token is discarded
for a fresh `ESSA/19L` term; any other first token gets `ESSA/19L` prepended
to the untouched route — together with the three concrete scenarios of the
claim. -/
theorem routeRewriteAssignDepartureRunway :
    (∀ pre oldRwy rest : String, (∀ c ∈ pre.data, c ≠ ' ') →
      (∀ c ∈ pre.data, c ≠ '/') → (∀ c ∈ oldRwy.data, c ≠ ' ') → rest ≠ "" →
      assignDepartureRunwayRoute "ESSA" "19L" (pre ++ "/" ++ oldRwy ++ " " ++ rest) =
        pre ++ "/19L " ++ rest) ∧
    (∀ ft rest : String, isSidPattern ft = true → rest ≠ "" →
      assignDepartureRunwayRoute "ESSA" "19L" (ft ++ " " ++ rest) =
        "ESSA/19L " ++ rest) ∧
    (∀ ft rest : String, (∀ c ∈ ft.data, c ≠ ' ') → (∀ c ∈ ft.data, c ≠ '/') →
      isSidPattern ft = false → rest ≠ "" →
      assignDepartureRunwayRoute "ESSA" "19L" (ft ++ " " ++ rest) =
        "ESSA/19L " ++ (ft ++ " " ++ rest)) ∧
    assignDepartureRunwayRoute "ESSA" "19L" "ESSA/01L N0450F350 ESOW" =
      "ESSA/19L N0450F350 ESOW" ∧
    assignDepartureRunwayRoute "ESSA" "19L" "VADIN3J N0450F350 ESOW" =
      "ESSA/19L N0450F350 ESOW" ∧
    assignDepartureRunwayRoute "ESSA" "19L" "N0450F350 ESOW" =
      "ESSA/19L N0450F350 ESOW" := by
  refine ⟨?_, ?_, ?_, by decide, by decide, by decide⟩
  · intro pre oldRwy rest hsp hsl hor hrest
    have hft : ∀ c ∈ (pre ++ "/" ++ oldRwy).data, c ≠ ' ' := by
      intro c hc
      simp only [String.data_append] at hc
      rcases List.mem_append.mp hc with hc | hc
      · rcases List.mem_append.mp hc with hc | hc
        · exact hsp c hc
        · simp_all
        -- hc : c ∈ "/".data, so c = '/' ≠ ' '
      · exact hor c hc
    unfold assignDepartureRunwayRoute
    rw [show pre ++ "/" ++ oldRwy ++ " " ++ rest =
          (pre ++ "/" ++ oldRwy) ++ " " ++ rest by
        apply String.ext; simp,
      splitFirstWord_append _ _ hft]
    dsimp only
    rw [splitAtSlash_append _ _ hsl]
    dsimp only
    rw [if_neg hrest]
    apply String.ext
    simp
  · intro ft rest hsid hrest
    have hchars := isSidPattern_chars ft hsid
    have hsp : ∀ c ∈ ft.data, c ≠ ' ' := by
      intro c hc he
      rcases hchars c hc with h | h <;> rw [he] at h <;> cases h
    have hsl : ∀ c ∈ ft.data, c ≠ '/' := by
      intro c hc he
      rcases hchars c hc with h | h <;> rw [he] at h <;> cases h
    unfold assignDepartureRunwayRoute
    rw [splitFirstWord_append _ _ hsp]
    dsimp only
    rw [splitAtSlash_of_no_slash _ hsl]
    dsimp only
    rw [if_pos hsid, if_neg hrest]
    apply String.ext
    simp
  · intro ft rest hsp hsl hsid hrest
    unfold assignDepartureRunwayRoute
    rw [splitFirstWord_append _ _ hsp]
    dsimp only
    rw [splitAtSlash_of_no_slash _ hsl]
    dsimp only
    rw [if_neg (by simp [hsid]), if_neg (by
      intro he
      have := congrArg String.data he
      simp at this)]
    apply String.ext
    simp

/-- Witness for C5 at the claim's concrete pilot-filed-SID route. -/
theorem routeRewriteAssignDepartureRunwayWitness :
    assignDepartureRunwayRoute "ESSA" "19L" ("VADIN3J" ++ " " ++ "N0450F350 ESOW") =
      "ESSA/19L " ++ "N0450F350 ESOW" :=
  routeRewriteAssignDepartureRunway.2.1 "VADIN3J" "N0450F350 ESOW"
    (by decide) (by decide)

/-- C6: the `assume` command is a 3-way decision: a handoff aimed at the
local operator's own callsign is accepted; otherwise an untracked aircraft
(empty or absent tracking-controller callsign) gets tracking started;
otherwise the current tracker is reported and no tracking mutation happens.
In particular an aircraft with empty tracking controller and no handoff
target is tracked, and `AcceptHandoff` is never called for it. -/
theorem assumeThreeWayDecision (fp : FlightPlanEnv) (myselfValid : Bool)
    (myCallsign : String) :
    (∀ h, fp.handoffTarget = some h → h = myCallsign → h ≠ "" →
      myselfValid = true →
      assumeDecision fp myselfValid myCallsign = AssumeAction.acceptHandoff) ∧
    (handoffToMe fp myselfValid myCallsign = false → fpUntracked fp = true →
      assumeDecision fp myselfValid myCallsign = AssumeAction.startTracking) ∧
    (∀ t, handoffToMe fp myselfValid myCallsign = false →
      fp.trackingController = some t → t ≠ "" →
      assumeDecision fp myselfValid myCallsign = AssumeAction.alreadyTracked t) ∧
    ((fp.trackingController = none ∨ fp.trackingController = some "") →
      (fp.handoffTarget = none ∨ fp.handoffTarget = some "") →
      assumeDecision fp myselfValid myCallsign = AssumeAction.startTracking ∧
        assumeDecision fp myselfValid myCallsign ≠ AssumeAction.acceptHandoff) := by
  refine ⟨?_, ?_, ?_, ?_⟩
  · rintro h hh rfl hne rfl
    simp [assumeDecision, handoffToMe, hh, hne]
  · intro hnh hun
    simp [assumeDecision, hnh, hun]
  · intro t hnh ht hne
    simp [assumeDecision, fpUntracked, hnh, ht, hne]
  · intro htr hho
    have hnh : handoffToMe fp myselfValid myCallsign = false := by
      rcases hho with h | h <;> simp [handoffToMe, h]
    have hun : fpUntracked fp = true := by
      rcases htr with h | h <;> simp [fpUntracked, h]
    refine ⟨by simp [assumeDecision, hnh, hun], ?_⟩
    simp [assumeDecision, hnh, hun]

/-- Witness for C6: an aircraft with no tracker and no handoff target is
tracked, never handoff-accepted. -/
theorem assumeThreeWayDecisionWitness :
    assumeDecision { callsign := "SAS1" } true "ESOS_CTR" =
        AssumeAction.startTracking ∧
      assumeDecision { callsign := "SAS1" } true "ESOS_CTR" ≠
        AssumeAction.acceptHandoff :=
  (assumeThreeWayDecision { callsign := "SAS1" } true "ESOS_CTR").2.2.2
    (Or.inl rfl) (Or.inl rfl)

/-- C7 counterexample: in the initial Disabled state the operator command
`.efs refresh` still publishes an outbound event — the per-flight-plan
controller-assigned snapshot of `Refresh` is not gated on `disabled` — so
"while Disabled, no outbound event is ever published" fails as stated. -/
theorem disabledRefreshPublishes :
    initialState.disabled = true ∧
      (onCompileCommand initialState { flightPlans := [{ callsign := "SAS123" }] }
          ".efs refresh").2.1 =
        [OutEvent.controllerAssignedDataUpdate
          (refreshCADMsg { callsign := "SAS123" })] ∧
      (onCompileCommand initialState { flightPlans := [{ callsign := "SAS123" }] }
          ".efs refresh").2.1 ≠ [] := by
  refine ⟨rfl, rfl, ?_⟩
  intro h
  rw [show (onCompileCommand initialState
      { flightPlans := [{ callsign := "SAS123" }] } ".efs refresh").2.1 =
      [OutEvent.controllerAssignedDataUpdate
        (refreshCADMsg { callsign := "SAS123" })] from rfl] at h
  cases h

/-- C7 (amended): over every reachable lifecycle state, Disabled implies no
inbound socket exists; while Disabled, every host event callback publishes
nothing and the timer tick is a complete no-op, the operator `.efs refresh`
command being the one exception (every other subcommand publishes nothing);
the Disabled→Enabled transition under a successful socket environment opens
the single inbound socket bound to port 17772 and publishes the
connection-type event first (exactly that event when no datagram is
pending, the enable tick falling through to the first poll); the
Enabled→Disabled transition publishes exactly the connection-type-changed
event and closes the socket; and a poll with no socket is a no-op, not an
error. -/
theorem lifecycleSocketAndGating :
    (∀ s, Reachable s → s.disabled = true → s.udpReceiveSocket = none) ∧
    (∀ fp dataType senderController targetController c rt selfCallsign,
      onFlightPlanFlightPlanDataUpdate true fp = none ∧
      onFlightPlanControllerAssignedDataUpdate true fp dataType = none ∧
      onFlightPlanDisconnect true fp = none ∧
      onFlightPlanFlightStripPushed true fp senderController targetController =
        none ∧
      onControllerPositionUpdate true c selfCallsign = none ∧
      onControllerDisconnect true c = none ∧
      onRadarTargetPositionUpdate true rt = none) ∧
    (∀ s conn counter now envOk host datagram, s.disabled = true →
      conn.isLive = false →
      onTimer s conn counter now envOk host datagram = (s, [], [])) ∧
    (∀ s host command, (splitFirstWord (strDropChars 5 command)).1 ≠ "refresh" →
      (onCompileCommand s host command).2.1 = []) ∧
    (∀ s conn counter now host datagram, s.disabled = true →
      s.udpReceiveSocket = none → conn.isLive = true →
      (onTimer s conn counter now true host datagram).1.disabled = false ∧
      (onTimer s conn counter now true host datagram).1.udpReceiveSocket =
        some 17772 ∧
      ((onTimer s conn counter now true host datagram).2.1).head? =
        some (OutEvent.connectionTypeUpdate conn) ∧
      (datagram = none →
        (onTimer s conn counter now true host datagram).2.1 =
          [OutEvent.connectionTypeUpdate conn])) ∧
    (∀ s conn counter now envOk host datagram, s.disabled = false →
      conn.isLive = false →
      (onTimer s conn counter now envOk host datagram).1.disabled = true ∧
      (onTimer s conn counter now envOk host datagram).1.udpReceiveSocket =
        none ∧
      (onTimer s conn counter now envOk host datagram).2.1 =
        [OutEvent.connectionTypeUpdate conn]) ∧
    (∀ s host datagram, s.udpReceiveSocket = none →
      receiveUdpMessages s host datagram = ([], [])) := by
  refine ⟨?_, ?_, ?_, ?_, ?_, ?_, ?_⟩
  · intro s hs
    induction hs with
    | init => intro _; rfl
    | timer s conn counter now envOk host datagram hs ih =>
      intro hd
      unfold onTimer at hd ⊢
      by_cases h1 : s.disabled = true ∧ conn.isLive = true
      · rw [if_pos h1] at hd
        simp at hd
      · rw [if_neg h1] at hd ⊢
        by_cases h2 : ¬ s.disabled = true ∧ ¬ conn.isLive = true
        · rw [if_pos h2]
        · rw [if_neg h2] at hd ⊢
          by_cases h3 : s.disabled = true
          · rw [if_pos h3] at hd ⊢
            exact ih hd
          · rw [if_neg h3] at hd ⊢
            dsimp only at hd
            exact absurd hd h3
  · intro fp dataType senderController targetController c rt selfCallsign
    refine ⟨rfl, rfl, rfl, rfl, rfl, rfl, rfl⟩
  · intro s conn counter now envOk host datagram hd hl
    unfold onTimer
    rw [if_neg (by simp [hl]), if_neg (by simp [hd]), if_pos hd]
  · intro s host command hsub
    unfold onCompileCommand
    by_cases h0 : strStarts ".efs " command = true
    · rw [if_neg (by simp [h0])]
      dsimp only
      by_cases h1 : (splitFirstWord (strDropChars 5 command)).1 = "debug"
      · rw [if_pos h1]
      · rw [if_neg h1]
        by_cases h2 : (splitFirstWord (strDropChars 5 command)).1 = "assume"
        · rw [if_pos h2]
          split_ifs with hcs
          · rfl
          · cases flightPlanSelect host
                (upperStr (splitFirstWord
                  (splitFirstWord (strDropChars 5 command)).2).1) with
            | none => rfl
            | some fp =>
              dsimp only
              cases assumeDecision fp host.myself.isValid
                  ((host.myself.callsign).getD "") <;> rfl
        · rw [if_neg h2]
          by_cases h3 : (splitFirstWord (strDropChars 5 command)).1 = "transfer"
          · rw [if_pos h3]
            split_ifs with hcs
            · rfl
            · cases flightPlanSelect host
                  (upperStr (splitFirstWord
                    (splitFirstWord (strDropChars 5 command)).2).1) with
              | none => rfl
              | some fp => rfl
          · rw [if_neg h3]
            by_cases h4 : (splitFirstWord (strDropChars 5 command)).1 = "scratch" ∨
                (splitFirstWord (strDropChars 5 command)).1 = "scratmp"
            · rw [if_pos h4]
            · rw [if_neg h4]
              by_cases h5 : (splitFirstWord (strDropChars 5 command)).1 = "ssr"
              · rw [if_pos h5]
                split_ifs <;> rfl
              · rw [if_neg h5]
                by_cases h6 : (splitFirstWord (strDropChars 5 command)).1 = "clr"
                · rw [if_pos h6]
                  split_ifs <;> rfl
                · rw [if_neg h6]
                  rw [if_neg hsub]
    · rw [if_pos (by simp [h0])]
  · intro s conn counter now host datagram hd hsock hl
    unfold onTimer
    rw [if_pos (by simp [hd, hl])]
    dsimp only
    rw [hsock]
    dsimp only
    rw [if_pos (by simp)]
    refine ⟨rfl, rfl, rfl, ?_⟩
    rintro rfl
    simp [onTimerTail, receiveUdpMessages]
  · intro s conn counter now envOk host datagram hd hl
    unfold onTimer
    rw [if_neg (by simp [hd]), if_pos (by simp [hd, hl])]
    exact ⟨rfl, rfl, rfl⟩
  · intro s host datagram hsock
    unfold receiveUdpMessages
    rw [hsock]

/-- Witness for the amended C7: a Disabled tick without a live connection is
a no-op; a non-refresh command publishes nothing; from the constructor state
a direct connection opens the port-17772 socket and, with no datagram
pending, publishes exactly the connection-type event; disabling from a live
state closes the socket and publishes the connection-type event; a poll in
the initial state is a no-op. -/
theorem lifecycleSocketAndGatingWitness :
    initialState.udpReceiveSocket = none ∧
      onTimer initialState ConnType.noConnection 0 0 true {} none =
        (initialState, [], []) ∧
      (onCompileCommand initialState {} ".efs debug").2.1 = [] ∧
      (onTimer initialState ConnType.direct 0 100 true {} none).1.udpReceiveSocket =
        some 17772 ∧
      (onTimer initialState ConnType.direct 0 100 true {} none).2.1 =
        [OutEvent.connectionTypeUpdate ConnType.direct] ∧
      (onTimer enabledSampleState
          ConnType.noConnection 1 200 true {} none).1.udpReceiveSocket = none ∧
      (onTimer enabledSampleState
          ConnType.noConnection 1 200 true {} none).2.1 =
        [OutEvent.connectionTypeUpdate ConnType.noConnection] ∧
      receiveUdpMessages initialState {} none = ([], []) :=
  ⟨lifecycleSocketAndGating.1 initialState Reachable.init rfl,
   lifecycleSocketAndGating.2.2.1 initialState ConnType.noConnection 0 0 true {}
     none rfl rfl,
   lifecycleSocketAndGating.2.2.2.1 initialState {} ".efs debug" (by decide),
   (lifecycleSocketAndGating.2.2.2.2.1 initialState ConnType.direct 0 100 {} none
      rfl rfl rfl).2.1,
   (lifecycleSocketAndGating.2.2.2.2.1 initialState ConnType.direct 0 100 {} none
      rfl rfl rfl).2.2.2 rfl,
   (lifecycleSocketAndGating.2.2.2.2.2.1 enabledSampleState ConnType.noConnection
      1 200 true {} none rfl rfl).2.1,
   (lifecycleSocketAndGating.2.2.2.2.2.1 enabledSampleState ConnType.noConnection
      1 200 true {} none rfl rfl).2.2,
   lifecycleSocketAndGating.2.2.2.2.2.2 initialState {} none rfl⟩

/-- Unfolding equation of `sanitizeAux` at the end of the string. -/
theorem sanitizeAux_nil (seq : List Nat) (k : Nat) :
    sanitizeAux seq k [] = List.replicate seq.length qmByte := by
  rw [sanitizeAux]

/-- Unfolding equation of `sanitizeAux` with no sequence in progress. -/
theorem sanitizeAux_zero_cons (c : Nat) (rest : List Nat) :
    sanitizeAux [] 0 (c :: rest) =
      if c = 0 then []
      else if c ≤ 0x7F then c :: sanitizeAux [] 0 rest
      else
        match leadContinuations c with
        | some cont => sanitizeAux [c] cont rest
        | none => qmByte :: sanitizeAux [] 0 rest := by
  rw [sanitizeAux]
  simp

/-- Unfolding equation of `sanitizeAux` while continuations are expected. -/
theorem sanitizeAux_pos_cons (seq : List Nat) (k : Nat) (hk : 0 < k)
    (c : Nat) (rest : List Nat) :
    sanitizeAux seq k (c :: rest) =
      if isContByte c then
        if k = 1 then seq ++ [c] ++ sanitizeAux [] 0 rest
        else sanitizeAux (seq ++ [c]) (k - 1) rest
      else
        List.replicate seq.length qmByte ++
          (if c = 0 then [] else sanitizeAux [] 0 (c :: rest)) := by
  rw [sanitizeAux]
  simp [hk]

/-- A lead byte expects 1–3 continuations and is at least `0xC2`. -/
theorem leadContinuations_bounds {c cont : Nat}
    (h : leadContinuations c = some cont) : 0 < cont ∧ 0xC2 ≤ c := by
  unfold leadContinuations at h
  split_ifs at h with h1 h2 h3
  all_goals injection h with h
  all_goals omega

/-- Placeholder runs are clean in front of any clean tail. -/
theorem cleanBytes_replicate_append (n : Nat) {l : List Nat}
    (hl : CleanBytes l) : CleanBytes (List.replicate n qmByte ++ l) := by
  induction n with
  | zero => simpa using hl
  | succ n ih =>
    rw [List.replicate_succ, List.cons_append]
    exact CleanBytes.ascii (by decide) (by decide) ih

/-- Placeholder runs are clean. -/
theorem cleanBytes_replicate (n : Nat) : CleanBytes (List.replicate n qmByte) := by
  simpa using cleanBytes_replicate_append n CleanBytes.nil

/-- Feeding exactly the expected continuation bytes flushes the accumulated
sequence and restarts the scan. -/
theorem sanitizeAux_consume :
    ∀ (cs : List Nat) (seq : List Nat) (k : Nat) (rest : List Nat), 0 < k →
      cs.length = k → (∀ x ∈ cs, isContByte x = true) →
      sanitizeAux seq k (cs ++ rest) = (seq ++ cs) ++ sanitizeAux [] 0 rest := by
  intro cs
  induction cs with
  | nil =>
    intro seq k rest hk hlen _
    simp at hlen
    exact ((by omega : False).elim)
  | cons c cs ih =>
    intro seq k rest hk hlen hall
    rw [List.cons_append, sanitizeAux_pos_cons seq k hk,
      if_pos (hall c (by simp))]
    by_cases hk1 : k = 1
    · rw [if_pos hk1]
      have hcs : cs = [] := by
        rw [List.length_cons] at hlen
        exact List.length_eq_zero.mp (by omega)
      subst hcs
      simp
    · rw [if_neg hk1]
      rw [ih (seq ++ [c]) (k - 1) rest (by omega)
        (by rw [List.length_cons] at hlen; omega)
        (fun x hx => hall x (by simp [hx]))]
      simp

/-- Every `sanitizeAux` run from a well-formed accumulator produces clean
output; the fuel `n` dominates the definition's lexicographic measure. -/
theorem sanitizeAux_clean_aux :
    ∀ n (l seq : List Nat) (k : Nat),
      2 * l.length + (if 0 < k then 1 else 0) ≤ n → SeqInv seq k →
      CleanBytes (sanitizeAux seq k l) := by
  intro n
  induction n with
  | zero =>
    intro l seq k hn hinv
    have hl : l = [] := List.length_eq_zero.mp (by omega)
    subst hl
    rw [sanitizeAux_nil]
    exact cleanBytes_replicate _
  | succ n ih =>
    intro l seq k hn hinv
    cases l with
    | nil =>
      rw [sanitizeAux_nil]
      exact cleanBytes_replicate _
    | cons c rest =>
      rw [List.length_cons] at hn
      by_cases hk : 0 < k
      · rw [if_pos hk] at hn
        rcases hinv with ⟨_, hk0⟩ | ⟨_, lead, cs, hseq, hlead, hall⟩
        · omega
        rw [sanitizeAux_pos_cons seq k hk]
        by_cases hc : isContByte c = true
        · rw [if_pos hc]
          by_cases hk1 : k = 1
          · rw [if_pos hk1]
            subst hseq
            have hres : (lead :: cs) ++ [c] ++ sanitizeAux [] 0 rest =
                lead :: ((cs ++ [c]) ++ sanitizeAux [] 0 rest) := by simp
            rw [hres]
            refine CleanBytes.seq ?_ ?_
              (ih rest [] 0 (by simp; omega) (Or.inl ⟨rfl, rfl⟩))
            · rw [List.length_append]
              simpa [hk1] using hlead
            · intro x hx
              rcases List.mem_append.mp hx with hx | hx
              · exact hall x hx
              · simp at hx
                subst hx
                exact hc
          · rw [if_neg hk1]
            refine ih rest (seq ++ [c]) (k - 1) (by split_ifs <;> omega) ?_
            right
            refine ⟨by omega, lead, cs ++ [c], by simp [hseq], ?_, ?_⟩
            · rw [List.length_append]
              have : cs.length + 1 + (k - 1) = cs.length + k := by omega
              simpa [this] using hlead
            · intro x hx
              rcases List.mem_append.mp hx with hx | hx
              · exact hall x hx
              · simp at hx
                subst hx
                exact hc
        · rw [if_neg hc]
          by_cases hc0 : c = 0
          · rw [if_pos hc0]
            simpa using cleanBytes_replicate seq.length
          · rw [if_neg hc0]
            refine cleanBytes_replicate_append _ ?_
            exact ih (c :: rest) [] 0 (by simp; omega) (Or.inl ⟨rfl, rfl⟩)
      · have hk0 : k = 0 := by omega
        subst hk0
        simp only [Nat.lt_irrefl, if_false] at hn
        rcases hinv with ⟨hseq, _⟩ | ⟨h, _⟩
        · subst hseq
          rw [sanitizeAux_zero_cons]
          by_cases hc0 : c = 0
          · rw [if_pos hc0]
            exact CleanBytes.nil
          · rw [if_neg hc0]
            by_cases hascii : c ≤ 0x7F
            · rw [if_pos hascii]
              exact CleanBytes.ascii hc0 hascii
                (ih rest [] 0 (by simp; omega) (Or.inl ⟨rfl, rfl⟩))
            · rw [if_neg hascii]
              cases hlead : leadContinuations c with
              | some cont =>
                dsimp only
                refine ih rest [c] cont
                  (by rw [if_pos (leadContinuations_bounds hlead).1]; omega) ?_
                right
                exact ⟨(leadContinuations_bounds hlead).1, c, [],
                  rfl, by simpa using hlead, by simp⟩
              | none =>
                dsimp only
                exact CleanBytes.ascii (by decide) (by decide)
                  (ih rest [] 0 (by simp; omega) (Or.inl ⟨rfl, rfl⟩))
        · omega

/-- The worker's output is always clean when started from an empty
accumulator. -/
theorem sanitizeAux_clean (l : List Nat) : CleanBytes (sanitizeAux [] 0 l) :=
  sanitizeAux_clean_aux (2 * l.length) l [] 0 (by simp) (Or.inl ⟨rfl, rfl⟩)

/-- The scan leaves clean byte strings untouched. -/
theorem sanitizeAux_id_of_clean :
    ∀ l : List Nat, CleanBytes l → sanitizeAux [] 0 l = l := by
  intro l hl
  induction hl with
  | nil =>
    rw [sanitizeAux_nil]
    rfl
  | ascii hne hle _ ih =>
    rw [sanitizeAux_zero_cons, if_neg hne, if_pos hle, ih]
  | seq hlead hall _ ih =>
    rename_i c cs rest _
    have hge := (leadContinuations_bounds hlead).2
    rw [sanitizeAux_zero_cons, if_neg (by omega), if_neg (by omega), hlead]
    dsimp only
    rw [sanitizeAux_consume cs [c] cs.length rest
      (leadContinuations_bounds hlead).1 rfl hall, ih]
    simp

/-- C9: `SanitizeUtf8` is idempotent — its output (valid sequences kept,
each malformed byte replaced by one `?`) is accepted unchanged by a second
pass, for every input byte string and for the null pointer. -/
theorem sanitizeUtf8Idempotent :
    ∀ input : Option (List Nat),
      sanitizeUtf8 (some (sanitizeUtf8 input)) = sanitizeUtf8 input := by
  intro input
  cases input with
  | none =>
    show sanitizeAux [] 0 [] = []
    rw [sanitizeAux_nil]
    rfl
  | some bytes =>
    exact sanitizeAux_id_of_clean _ (sanitizeAux_clean bytes)

end VatEFS
